import Mathlib

/-!
Shallow embedding of the `fsc-sanction-qa` repository's engine adapter
(`src/app/engines/gemini_engine.py` together with the base class
`src/app/engines/base.py`) and proofs about it.

Conventions of the embedding:
* Python duck-typed attribute access (`hasattr(x, 'f') and x.f`) is modelled
  with `Option` fields: `none` stands for an absent (or `None`-valued)
  attribute.  Python truthiness of a string value (`if x:`) is the predicate
  `truthyStr`: `none` and `some ""` are falsy.
* Python `float` arithmetic is modelled over `ℚ` (exact arithmetic, the
  formulas involved are sums and products of small literals).
* The persisted pointer file `data/gemini_corpus/store_info.json` is modelled
  as an association list of keys to JSON-like values (`JsonObj`); `dict.get`
  is a key lookup with a default.  The state of the file on disk when a read
  happens is `Option (Except String JsonObj)`: `none` when the file does not
  exist, `some (.error e)` when opening or JSON-parsing raises (caught by the
  code), `some (.ok doc)` when it parses to the object `doc`.
* External effects (the provider's responses, upload/import outcomes,
  wall-clock times) are inputs of the modelled functions.
-/

namespace FscSanctionQA

/-- Python truthiness of an optional string: `None` and `""` are falsy. -/
def truthyStr : Option String → Bool
  | none => false
  | some s => s ≠ ""

/-- One entry of the pointer's `files` list, as written by `build_index`
(step 2a): `{'display_name': file_path.name, 'file_name': file_obj.name}`. -/
structure FileRecord where
  display_name : String
  file_name : String
deriving DecidableEq

/-- JSON-like values occurring in the persisted pointer document. -/
inductive JsonVal where
  | str (s : String)
  | num (q : ℚ)
  | fileList (xs : List FileRecord)
deriving DecidableEq

/-- The persisted pointer document: an association list (a JSON object). -/
def JsonObj : Type := List (String × JsonVal)

instance : DecidableEq JsonObj := by
  unfold JsonObj
  infer_instance

/-- `dict.get(key)` — first value stored under `key`, if any. -/
def pyGet (d : JsonObj) (key : String) : Option JsonVal :=
  List.lookup key d

/-- `dict.get(key)` where the caller expects a string value (the documents
written by `_save_store_info` store strings under these keys). -/
def getStr (d : JsonObj) (key : String) : Option String :=
  match pyGet d key with
  | some (.str s) => some s
  | _ => none

/-- `dict.get(key, default)` for string-valued keys. -/
def getStrD (d : JsonObj) (key : String) (default : String) : String :=
  (getStr d key).getD default

/-- `dict.get(key, default)` for numeric keys. -/
def getNumD (d : JsonObj) (key : String) (default : ℚ) : ℚ :=
  match pyGet d key with
  | some (.num q) => q
  | _ => default

/-- `dict.get(key, default)` for the `files` list. -/
def getFilesD (d : JsonObj) (key : String) : List FileRecord :=
  match pyGet d key with
  | some (.fileList xs) => xs
  | _ => []

/-- The mutable state of a `GeminiEngine` instance relevant to the claims:
`self.store_resource_name` (a `str` or `None`) and `self._initialized`
(set to `False` in `RAGEngine.__init__`, base.py line 46). -/
structure EngineState where
  store_resource_name : Option String
  initialized : Bool
deriving DecidableEq

/-- The state `GeminiEngine.__init__` leaves behind (given a present API
key): `store_resource_name = None`, and `_initialized = False` from
`RAGEngine.__init__`. -/
def initState : EngineState :=
  { store_resource_name := none, initialized := false }

/-- The `pricing` sub-dictionary of the engine configuration;
`pricing.get('input_price', 0.075)` and `pricing.get('output_price', 0.30)`
are modelled by `getD` with the same defaults (`0.075 = 3/40`,
`0.30 = 3/10`). -/
structure Pricing where
  input_price : Option ℚ
  output_price : Option ℚ
deriving DecidableEq

/-- `GeminiEngine._estimate_cost` (gemini_engine.py lines 289–312), over exact
rationals: token counts are `len(text) * 1.5` (`1.5 = 3/2`), prices default to
`0.075` and `0.30` per million tokens. -/
def estimate_cost (pricing : Pricing) (input_text output_text : String) : ℚ :=
  let input_tokens : ℚ := (input_text.length : ℚ) * (3/2)
  let output_tokens : ℚ := (output_text.length : ℚ) * (3/2)
  let input_price : ℚ := pricing.input_price.getD (3/40)
  let output_price : ℚ := pricing.output_price.getD (3/10)
  input_tokens / 1000000 * input_price + output_tokens / 1000000 * output_price

/-! ### Provider response shape and citation extraction -/

/-- The `retrieved_context` payload of a grounding chunk.  Each field models
a duck-typed attribute probed with `hasattr`. -/
structure RetrievedContext where
  title : Option String
  uri : Option String
  text : Option String
deriving DecidableEq

/-- One grounding chunk of the provider response.  `retrieved_context` is
probed with `hasattr(chunk, 'retrieved_context')` only (no truthiness check);
`score` with `hasattr(chunk, 'score')` only. -/
structure GroundingChunk where
  retrieved_context : Option RetrievedContext
  score : Option ℚ
deriving DecidableEq

/-- `candidate.grounding_metadata`.  The grounding-supports list is iterated
by the code with a `pass` body (lines 274–278) and never affects the result,
so only the chunk list is modelled; an absent or `None` `grounding_chunks`
attribute is collapsed to `[]` (both make the guard on line 243 fail, and
looping over `[]` appends nothing either way). -/
structure GroundingMetadata where
  grounding_chunks : List GroundingChunk
deriving DecidableEq

/-- One entry of `response.candidates`; `grounding_metadata` is probed with
`hasattr` and then for truthiness (`None` is falsy, any object truthy). -/
structure Candidate where
  grounding_metadata : Option GroundingMetadata
deriving DecidableEq

/-- The provider's generation response, as far as the adapter inspects it:
`text` (used for the answer when present) and `candidates` (an absent
`candidates` attribute is collapsed to `[]`: the guard on line 236 requires
both presence and nonzero length). -/
structure GenResponse where
  text : Option String
  candidates : List Candidate
deriving DecidableEq

/-- A `Source` dataclass instance (base.py lines 13–19).  `metadata` holds
the `{'type': ..., 'index': ...}` dictionary built on line 270. -/
structure Source where
  filename : String
  snippet : String
  score : ℚ
  metadata : Option (String × ℕ)
deriving DecidableEq

/-- Characters of the last `/`-separated segment: scans the characters,
resetting the accumulated segment at each `/`. -/
def lastSegAux : List Char → List Char → List Char
  | [], acc => acc.reverse
  | c :: rest, acc =>
      if c = '/' then lastSegAux rest []
      else lastSegAux rest (c :: acc)

/-- Python `uri.split('/')[-1]`: the last `/`-separated segment (everything
after the final `/`; the whole string when it has no `/`; `""` for `""` and
for strings ending in `/`, matching Python's empty final segment). -/
def lastUriSegment (uri : String) : String :=
  String.mk (lastSegAux uri.data [])

/-- The body of the loop on gemini_engine.py lines 244–271 for one chunk at
enumerate-index `i`: `some` of the appended `Source` when the chunk has a
`retrieved_context` attribute, `none` otherwise. -/
def citeChunk (i : ℕ) (chunk : GroundingChunk) : Option Source :=
  match chunk.retrieved_context with
  | none => none
  | some context =>
      let filename : String :=
        if truthyStr context.title then context.title.getD ""
        else if truthyStr context.uri then lastUriSegment (context.uri.getD "")
        else "未知文件"
      let snippet : String :=
        if truthyStr context.text then (context.text.getD "").take 500
        else ""
      let score : ℚ :=
        match chunk.score with
        | some s => s
        | none => 1
      some { filename := filename, snippet := snippet, score := score,
             metadata := some ("file_search", i) }

/-- The `for i, chunk in enumerate(metadata.grounding_chunks)` loop
(lines 244–271), appending the produced sources in chunk order. -/
def extractLoop (i : ℕ) : List GroundingChunk → List Source
  | [] => []
  | chunk :: rest =>
      match citeChunk i chunk with
      | some s => s :: extractLoop (i + 1) rest
      | none => extractLoop (i + 1) rest

/-- `GeminiEngine._extract_sources` (lines 222–287): guards on the first
candidate, its grounding metadata, and a nonempty chunk list, then runs the
extraction loop.  The surrounding `try/except` never fires in the model (every
operation is total), and the empty result only triggers a log line. -/
def extract_sources (response : GenResponse) : List Source :=
  match response.candidates with
  | [] => []
  | candidate :: _ =>
      match candidate.grounding_metadata with
      | none => []
      | some metadata =>
          match metadata.grounding_chunks with
          | [] => []
          | chunks => extractLoop 0 chunks

/-- The grounding chunks `_extract_sources` iterates over: those of the first
candidate's grounding metadata, `[]` whenever any guard fails. -/
def chunksOfResponse (response : GenResponse) : List GroundingChunk :=
  match response.candidates with
  | [] => []
  | candidate :: _ =>
      match candidate.grounding_metadata with
      | none => []
      | some metadata => metadata.grounding_chunks

/-! ### Query -/

/-- The errors `query` can raise: the two `RuntimeError`s of lines 168–172,
and a re-raised provider exception (line 218–220). -/
inductive QueryError where
  | notInitialized (msg : String)
  | storeMissing (msg : String)
  | providerError (msg : String)
deriving DecidableEq

/-- A `RAGResponse` dataclass instance (base.py lines 22–31).  `metadata`
defaults to `None` and `query` never sets it. -/
structure RAGResponse where
  answer : String
  sources : List Source
  confidence : ℚ
  latency : ℚ
  cost_estimate : ℚ
  engine_name : String
  metadata : Option (List (String × String)) := none
deriving DecidableEq

/-- `GeminiEngine.query` (lines 157–220).  Inputs from the environment: the
provider call's outcome (`provider`, an exception or a response — the model
is given it but consults it only after the two state guards pass) and the
measured wall-clock latency.  The second component of the result records
whether the provider's generation endpoint was called.  Python's
`response.text if hasattr(response, 'text') else str(response)` is modelled
with a fixed rendering for the `str(response)` branch. -/
def query (pricing : Pricing) (st : EngineState) (question : String)
    (provider : Except String GenResponse) (latency : ℚ) :
    Except QueryError RAGResponse × Bool :=
  if !st.initialized then
    (.error (.notInitialized "Gemini 引擎尚未初始化或未建立索引"), false)
  else if !truthyStr st.store_resource_name then
    (.error (.storeMissing "File Search Store 未建立，請重新建立索引"), false)
  else
    match provider with
    | .error e => (.error (.providerError e), true)
    | .ok response =>
        let answer : String :=
          match response.text with
          | some t => t
          | none => "<GenerateContentResponse>"
        let sources := extract_sources response
        let cost := estimate_cost pricing question answer
        (.ok { answer := answer, sources := sources, confidence := 17/20,
               latency := latency, cost_estimate := cost,
               engine_name := "Gemini File Search" }, true)

/-! ### Persistence: save, load, info -/

/-- `GeminiEngine._save_store_info` (lines 314–334): the JSON document written
to `data/gemini_corpus/store_info.json`.  `created_at` (`time.time()`) and
`created_time` (`time.strftime(...)`) are environment inputs. -/
def save_store_info (store_resource_name : String)
    (uploaded_files : List FileRecord) (created_at : ℚ) (created_time : String) :
    JsonObj :=
  [("store_resource_name", .str store_resource_name),
   ("created_at", .num created_at),
   ("created_time", .str created_time),
   ("files", .fileList uploaded_files),
   ("total_files", .num uploaded_files.length)]

/-- `GeminiEngine.load_corpus_info` (lines 336–372).  `file` is the state of
the pointer file on disk.  Note the assignment to `self.store_resource_name`
on line 356 happens before the truthiness check on line 358, so a document
lacking the key clears the stored name even though the load reports failure;
read or parse exceptions are caught and leave the state unchanged. -/
def load_corpus_info (st : EngineState)
    (file : Option (Except String JsonObj)) : EngineState × Bool :=
  match file with
  | none => (st, false)
  | some (.error _) => (st, false)
  | some (.ok info_data) =>
      let name? : Option String := getStr info_data "store_resource_name"
      let st' : EngineState := { st with store_resource_name := name? }
      if truthyStr name? then
        ({ st' with initialized := true }, true)
      else
        (st', false)

/-- The shape `get_index_info` returns: either the "not found" dictionary
(`exists: False, expired: False, message: ...`) or the found dictionary with
`expired`, `created_time`, `age_hours`, `total_files`,
`store_resource_name`. -/
inductive IndexInfo where
  | notFound (expired : Bool) (message : String)
  | found (expired : Bool) (created_time : String) (age_hours : ℚ)
      (total_files : ℚ) (store_resource_name : String)
deriving DecidableEq

/-- The `exists` field of the returned dictionary. -/
def IndexInfo.indexExists : IndexInfo → Bool
  | .notFound _ _ => false
  | .found _ _ _ _ _ => true

/-- `GeminiEngine.get_index_info` (lines 374–415): total over every
filesystem state; `currentTime` is `time.time()` at the call. -/
def get_index_info (file : Option (Except String JsonObj))
    (currentTime : ℚ) : IndexInfo :=
  match file with
  | none => .notFound false "索引不存在"
  | some (.error e) => .notFound false ("讀取失敗: " ++ e)
  | some (.ok info_data) =>
      let created_at := getNumD info_data "created_at" 0
      let age_hours := (currentTime - created_at) / 3600
      .found false (getStrD info_data "created_time" "未知") age_hours
        (getNumD info_data "total_files" 0)
        (getStrD info_data "store_resource_name" "未知")

/-! ### build_index -/

/-- The per-file environment of one `*.txt` file found by
`data_path.glob("*.txt")`: its name, the outcome of the Files-API upload
(`some fileId` when `client.files.upload` returns, `none` when it raises —
caught on line 112), and whether the later `import_file` call for this file
succeeds (consulted only when the upload succeeded; a failed import is caught
on line 136). -/
structure FileEnv where
  name : String
  upload : Option String
  importOk : Bool
deriving DecidableEq

/-- The upload pass (lines 88–114): appends a record for each file whose
upload succeeded, in file order. -/
def uploadLoop : List FileEnv → List FileRecord
  | [] => []
  | f :: rest =>
      match f.upload with
      | some fid => { display_name := f.name, file_name := fid } :: uploadLoop rest
      | none => uploadLoop rest

/-- The import pass (lines 118–139) counts successful imports.  The Python
code iterates over `uploaded_files`, which lists exactly the files with a
successful upload in original order, so the count is taken in one pass over
the same file environments: an entry contributes iff its upload succeeded and
its import succeeded. -/
def importCount : List FileEnv → ℕ
  | [] => 0
  | f :: rest =>
      match f.upload with
      | some _ => (if f.importOk then 1 else 0) + importCount rest
      | none => importCount rest

/-- Number of files that succeeded both the upload step and the import step
(the quantity named by the spec's count property). -/
def bothSucceededCount (files : List FileEnv) : ℕ :=
  importCount files

/-- A successful run of `GeminiEngine.build_index` (lines 55–155):
`providerStoreName` is the resource name of the store the provider created
(line 78), `txtFiles` the matched `*.txt` files with their per-file outcomes,
`created_at`/`created_time` the clock readings used by `_save_store_info`.
Returns the post-state (store name set on line 78, `_initialized = True` on
line 151) and the persisted pointer document of line 149. -/
def build_index (st : EngineState) (providerStoreName : String)
    (txtFiles : List FileEnv) (created_at : ℚ) (created_time : String) :
    EngineState × JsonObj :=
  let uploaded_files := uploadLoop txtFiles
  let doc := save_store_info providerStoreName uploaded_files created_at created_time
  ({ st with store_resource_name := some providerStoreName, initialized := true },
   doc)

/-! ### Specification-side definitions and concrete inputs -/

/-- The citation claim C3 prescribes for a chunk at position `i`, transcribed
from the claim's words with "present" read as the field being there
(`isSome`): filename is the context's title if present, else the last
`/`-separated segment of its URI if present, else the placeholder; snippet is
the first 500 characters of the text, empty if absent; score is the chunk's
score if present, else `1.0`. -/
def citationClaimed (i : ℕ) (chunk : GroundingChunk) : Option Source :=
  match chunk.retrieved_context with
  | none => none
  | some context =>
      some { filename :=
               match context.title with
               | some t => t
               | none =>
                   match context.uri with
                   | some u => lastUriSegment u
                   | none => "未知文件",
             snippet :=
               match context.text with
               | some t => t.take 500
               | none => "",
             score := chunk.score.getD 1,
             metadata := some ("file_search", i) }

/-- The citation the code actually produces, written from the amended claim:
the title is used only when present and non-empty, the URI only when present
and non-empty. -/
def citationAmended (i : ℕ) (chunk : GroundingChunk) : Option Source :=
  match chunk.retrieved_context with
  | none => none
  | some context =>
      some { filename :=
               match context.title with
               | some t =>
                   if t = "" then
                     match context.uri with
                     | some u => if u = "" then "未知文件" else lastUriSegment u
                     | none => "未知文件"
                   else t
               | none =>
                   match context.uri with
                   | some u => if u = "" then "未知文件" else lastUriSegment u
                   | none => "未知文件",
             snippet :=
               match context.text with
               | some t => t.take 500
               | none => "",
             score := chunk.score.getD 1,
             metadata := some ("file_search", i) }

/-- A retrieved context whose `title` attribute is present but empty: the
claimed and the implemented filename rules disagree here. -/
def c3context : RetrievedContext :=
  { title := some "", uri := some "a/b.txt", text := some "hello" }

/-- A grounding chunk wrapping `c3context`, with no score attribute. -/
def c3chunk : GroundingChunk :=
  { retrieved_context := some c3context, score := none }

/-- A provider response whose only chunk is `c3chunk`. -/
def c3response : GenResponse :=
  { text := some "ans",
    candidates := [{ grounding_metadata := some { grounding_chunks := [c3chunk] } }] }

/-- One source file whose upload succeeds but whose import fails. -/
def c1files : List FileEnv :=
  [{ name := "a.txt", upload := some "files/f1", importOk := false }]

/-- Adapter state after a successful `build_index` run over no files. -/
def c10state1 : EngineState :=
  (build_index initState "fileSearchStores/s1" [] 0 "t0").1

/-- A parsed pointer document that lacks the `store_resource_name` key. -/
def c10emptyDoc : JsonObj := []

/-- Adapter state after `load_corpus_info` reads `c10emptyDoc` in state
`c10state1`: the stored name is cleared while the flag stays set. -/
def c10state2 : EngineState :=
  (load_corpus_info c10state1 (some (.ok c10emptyDoc))).1

/-- The initialization invariant of claim C10: whenever the `_initialized`
flag is true, the stored collection resource name is set and non-empty. -/
def Inv (st : EngineState) : Prop :=
  st.initialized = true → truthyStr st.store_resource_name = true

/-- Pricing used by concrete witnesses. -/
def wPricing : Pricing := { input_price := some 1, output_price := some 2 }

/-- An initialized adapter state used by concrete witnesses. -/
def wState : EngineState :=
  { store_resource_name := some "fileSearchStores/s1", initialized := true }

/-- A provider response with no grounding metadata at all, used by the C4
witness. -/
def wEmptyResponse : GenResponse := { text := some "ans", candidates := [] }

/-- The response `query` builds for `wState`, `"q"`, and `wEmptyResponse`. -/
def wRR : RAGResponse :=
  { answer := "ans", sources := [], confidence := 17/20, latency := 0,
    cost_estimate := estimate_cost wPricing "q" "ans",
    engine_name := "Gemini File Search" }

/-! ## Helper lemmas -/

theorem uploadLoop_length (files : List FileEnv) :
    (uploadLoop files).length = files.countP (fun f => f.upload.isSome) := by
  induction files with
  | nil => rfl
  | cons f rest ih =>
      cases h : f.upload <;>
        simp [uploadLoop, h, List.countP_cons, ih]

theorem extract_sources_eq_loop (response : GenResponse) :
    extract_sources response = extractLoop 0 (chunksOfResponse response) := by
  rcases response with ⟨text, candidates⟩
  cases candidates with
  | nil => rfl
  | cons c rest =>
      rcases c with ⟨gm⟩
      cases gm with
      | none => rfl
      | some m =>
          rcases m with ⟨chunks⟩
          cases chunks with
          | nil => rfl
          | cons a b => rfl

set_option maxRecDepth 4000 in
theorem citeChunk_eq_amended (i : ℕ) (chunk : GroundingChunk) :
    citeChunk i chunk = citationAmended i chunk := by
  rcases chunk with ⟨rc, sc⟩
  cases rc with
  | none => rfl
  | some context =>
      rcases context with ⟨title, uri, text⟩
      unfold citeChunk citationAmended
      dsimp only
      rw [Option.some_inj, Source.mk.injEq]
      refine ⟨?_, ?_, ?_, rfl⟩
      · cases title with
        | none =>
            cases uri with
            | none => rfl
            | some u => by_cases h : u = "" <;> simp [truthyStr, h]
        | some t =>
            by_cases h : t = ""
            · subst h
              cases uri with
              | none => simp [truthyStr]
              | some u => by_cases h₂ : u = "" <;> simp [truthyStr, h₂]
            · simp [truthyStr, h]
      · cases text with
        | none => rfl
        | some t =>
            by_cases h : t = ""
            · subst h
              rw [if_neg (by decide)]
              dsimp only
              rw [String.take_eq]
              rfl
            · simp [truthyStr, h]
      · cases sc <;> rfl

theorem extractLoop_eq_filterMap (l : List GroundingChunk) (i : ℕ) :
    extractLoop i l =
      (List.enumFrom i l).filterMap (fun p => citationAmended p.1 p.2) := by
  induction l generalizing i with
  | nil => rfl
  | cons c rest ih =>
      rw [List.enumFrom, List.filterMap_cons]
      rw [← citeChunk_eq_amended]
      unfold extractLoop
      cases h : citeChunk i c <;> simp [h, ih]

/-! ## Claims -/

/-- C5: for every input text, output text, and pricing configuration, the
cost estimate equals `(len(input) * 1.5 / 1,000,000) * input_price +
(len(output) * 1.5 / 1,000,000) * output_price`, with `input_price` and
`output_price` the configured per-million-token prices (defaults `0.075` and
`0.30` when unconfigured). -/
theorem C5_estimate_cost_formula (pricing : Pricing)
    (input_text output_text : String) :
    estimate_cost pricing input_text output_text =
      ((input_text.length : ℚ) * (3/2) / 1000000) * pricing.input_price.getD (3/40) +
      ((output_text.length : ℚ) * (3/2) / 1000000) * pricing.output_price.getD (3/10) := by
  unfold estimate_cost
  ring

/-- C6: for fixed pricing with non-negative effective input and output
prices, the cost estimate is monotonically non-decreasing in the length of
the input text and the length of the output text. -/
theorem C6_estimate_cost_monotone (pricing : Pricing) (s₁ s₂ t₁ t₂ : String)
    (hip : 0 ≤ pricing.input_price.getD (3/40))
    (hop : 0 ≤ pricing.output_price.getD (3/10))
    (hs : s₁.length ≤ s₂.length) (ht : t₁.length ≤ t₂.length) :
    estimate_cost pricing s₁ t₁ ≤ estimate_cost pricing s₂ t₂ := by
  have hs' : (s₁.length : ℚ) ≤ (s₂.length : ℚ) := by exact_mod_cast hs
  have ht' : (t₁.length : ℚ) ≤ (t₂.length : ℚ) := by exact_mod_cast ht
  simp only [estimate_cost]
  gcongr

/-- Witness for C6 at concrete inputs. -/
theorem C6_witness :
    estimate_cost wPricing "a" "" ≤ estimate_cost wPricing "ab" "c" :=
  C6_estimate_cost_monotone wPricing "a" "ab" "" "c"
    (by norm_num [wPricing]) (by norm_num [wPricing]) (by decide) (by decide)

/-- C7: `get_index_info` is a total function of the filesystem state (it
never raises); it returns an `exists = False` shape when the pointer file is
missing and when reading or parsing an existing pointer file fails, and a
found shape on a parsed document. -/
theorem C7_get_index_info_never_raises (e : String) (doc : JsonObj) (t : ℚ) :
    (get_index_info none t).indexExists = false ∧
    (get_index_info (some (.error e)) t).indexExists = false ∧
    (get_index_info (some (.ok doc)) t).indexExists = true := by
  exact ⟨rfl, rfl, rfl⟩

/-- C8: persisting a collection pointer and loading it back yields the same
`store_resource_name` that was written, and a `total_files` equal to the
number of file records written: the written document carries them, the
loading adapter's stored name equals the written name, and `get_index_info`
reports them unchanged. -/
theorem C8_pointer_round_trip (name : String) (files : List FileRecord)
    (created_at : ℚ) (created_time : String) (st : EngineState) (now : ℚ) :
    getStr (save_store_info name files created_at created_time)
        "store_resource_name" = some name ∧
    getNumD (save_store_info name files created_at created_time)
        "total_files" 0 = (files.length : ℚ) ∧
    (load_corpus_info st
        (some (.ok (save_store_info name files created_at created_time)))).1.store_resource_name
      = some name ∧
    get_index_info (some (.ok (save_store_info name files created_at created_time))) now =
      .found false created_time ((now - created_at) / 3600) (files.length : ℚ) name := by
  refine ⟨rfl, rfl, ?_, rfl⟩
  show (load_corpus_info st (some (.ok (save_store_info name files created_at
      created_time)))).1.store_resource_name = some name
  unfold load_corpus_info
  dsimp only
  split <;> rfl

/-- C2: in every adapter state whose `_initialized` flag is false (neither
`build_index` succeeded nor a pointer was loaded), `query` returns the
"uninitialized" `RuntimeError` immediately, and the provider's generation
endpoint is not called (second component `false`), whatever the provider
would have answered. -/
theorem C2_query_uninitialized (pricing : Pricing) (st : EngineState)
    (question : String) (provider : Except String GenResponse) (latency : ℚ)
    (h : st.initialized = false) :
    query pricing st question provider latency =
      (.error (.notInitialized "Gemini 引擎尚未初始化或未建立索引"), false) := by
  unfold query
  simp [h]

/-- Witness for C2: a freshly constructed adapter refuses a query without
calling the provider. -/
theorem C2_witness :
    query wPricing initState "q" (.error "provider must not be called") 0 =
      (.error (.notInitialized "Gemini 引擎尚未初始化或未建立索引"), false) :=
  C2_query_uninitialized wPricing initState "q"
    (.error "provider must not be called") 0 rfl

/-- C9: every `RAGResponse` produced by a successful `query` carries the
constant confidence `0.85 = 17/20` and the constant engine name
`"Gemini File Search"`, independent of the question, answer, and
citations. -/
theorem C9_constant_confidence (pricing : Pricing) (st : EngineState)
    (question : String) (response : GenResponse) (latency : ℚ)
    (rr : RAGResponse) (b : Bool)
    (h : query pricing st question (.ok response) latency = (.ok rr, b)) :
    rr.confidence = 17/20 ∧ rr.engine_name = "Gemini File Search" := by
  unfold query at h
  split at h
  · simp at h
  · split at h
    · simp at h
    · dsimp only at h
      rw [Prod.mk.injEq] at h
      obtain ⟨h1, -⟩ := h
      have h2 := (Except.ok.inj h1).symm
      subst h2
      exact ⟨rfl, rfl⟩

/-- Witness for C9 at concrete inputs. -/
theorem C9_witness :
    wRR.confidence = 17/20 ∧ wRR.engine_name = "Gemini File Search" :=
  C9_constant_confidence wPricing wState "q" wEmptyResponse 0 wRR true rfl

/-- C4: for every provider response carrying zero grounding chunks (in
particular when any of the grounding guards fails: no candidates, no
grounding metadata, or an empty chunk list), `_extract_sources` returns the
empty citation list, and a `query` in an initialized state still returns an
ok `RAGResponse` (with empty sources) rather than failing. -/
theorem C4_empty_grounding (pricing : Pricing) (st : EngineState)
    (question : String) (response : GenResponse) (latency : ℚ)
    (hchunks : chunksOfResponse response = [])
    (hinit : st.initialized = true)
    (hstore : truthyStr st.store_resource_name = true) :
    extract_sources response = [] ∧
    ∃ rr : RAGResponse,
      (query pricing st question (.ok response) latency).1 = .ok rr ∧
        rr.sources = [] := by
  have hext : extract_sources response = [] := by
    rw [extract_sources_eq_loop, hchunks]
    rfl
  refine ⟨hext, ?_⟩
  unfold query
  simp only [hinit, hstore, Bool.not_true, Bool.false_eq_true, if_false]
  exact ⟨_, rfl, hext⟩

/-- Witness for C4 at concrete inputs. -/
theorem C4_witness :
    extract_sources wEmptyResponse = [] ∧
    ∃ rr : RAGResponse,
      (query wPricing wState "q" (.ok wEmptyResponse) 0).1 = .ok rr ∧
        rr.sources = [] :=
  C4_empty_grounding wPricing wState "q" wEmptyResponse 0 rfl rfl (by decide)

/-- Counterexample to C3 as stated: for a grounding chunk whose
`retrieved_context` has a present but empty `title` (and a URI
`"a/b.txt"`), the code's citation filename is `"b.txt"` (the empty title is
falsy and skipped, line 251) while the claim's rule — title if present —
demands `""`. -/
theorem C3_counterexample :
    (extract_sources c3response).map Source.filename = ["b.txt"] ∧
    ((List.enumFrom 0 (chunksOfResponse c3response)).filterMap
        (fun p => citationClaimed p.1 p.2)).map Source.filename = [""] := by
  constructor <;> rfl

/-- C3 (amended): citation extraction maps each grounding chunk carrying a
retrieved-context payload to exactly one citation — filename is the
context's title if present and non-empty, else the last `/`-separated
segment of its URI if the URI is present and non-empty, else the fixed
placeholder; snippet is the first 500 characters of the context's text (empty
if absent); score is the chunk's score if present, else 1.0 — and the
citations appear in the order their chunks appear in the response. -/
theorem C3_extraction_amended (response : GenResponse) :
    extract_sources response =
      (List.enumFrom 0 (chunksOfResponse response)).filterMap
        (fun p => citationAmended p.1 p.2) := by
  rw [extract_sources_eq_loop, extractLoop_eq_filterMap]

/-- Counterexample to C1 as stated: one source file whose upload succeeds
and whose import fails stays in the persisted `files` list (length 1),
although zero files succeeded both upload and import. -/
theorem C1_counterexample :
    (getFilesD (build_index initState "fileSearchStores/s1" c1files 0 "t0").2
        "files").length = 1 ∧
    bothSucceededCount c1files = 0 := by
  constructor <;> rfl

/-- C1 (amended): for every successful `build_index` run, the number of
entries in the persisted pointer's `files` list never exceeds the number of
matching `*.txt` source documents and equals the number of files that
succeeded the upload step — import failures are only logged and do not
remove a file from the list — and the persisted `total_files` equals that
same count. -/
theorem C1_build_index_pointer_counts (st : EngineState)
    (providerStoreName : String) (txtFiles : List FileEnv)
    (created_at : ℚ) (created_time : String) :
    (getFilesD (build_index st providerStoreName txtFiles created_at created_time).2
        "files").length = txtFiles.countP (fun f => f.upload.isSome) ∧
    (getFilesD (build_index st providerStoreName txtFiles created_at created_time).2
        "files").length ≤ txtFiles.length ∧
    getNumD (build_index st providerStoreName txtFiles created_at created_time).2
        "total_files" 0 =
      ((getFilesD (build_index st providerStoreName txtFiles created_at created_time).2
          "files").length : ℚ) := by
  have hdoc : getFilesD
      (build_index st providerStoreName txtFiles created_at created_time).2 "files" =
      uploadLoop txtFiles := rfl
  refine ⟨?_, ?_, ?_⟩
  · rw [hdoc, uploadLoop_length]
  · rw [hdoc, uploadLoop_length]
    exact List.countP_le_length _
  · rw [hdoc]
    rfl

/-- Counterexample to C10 as stated: after a successful `build_index`, a
`load_corpus_info` call reading a parsed pointer that lacks
`store_resource_name` clears the stored name (assignment on line 356
precedes the check on line 358) but leaves `_initialized` true, violating
the invariant. -/
theorem C10_counterexample :
    c10state2.initialized = true ∧ c10state2.store_resource_name = none := by
  constructor <;> rfl

/-- C10 (amended): construction establishes the invariant "initialized
implies a set, non-empty store resource name"; a successful `build_index`
preserves it provided the provider-returned store name is non-empty; a
`load_corpus_info` from an uninitialized state preserves it, and from an
uninitialized state a failing load leaves the adapter uninitialized; a load
returns false whenever the pointer file is missing, unreadable, or lacks a
truthy `store_resource_name`.  (`query` and `get_index_info` never write the
flag or the name.)  On an already-initialized adapter, however, a load of a
pointer lacking the name clears the name while keeping the flag — the
unamended claim fails there. -/
theorem C10_initialization_invariant :
    Inv initState ∧
    (∀ (st : EngineState) (pn : String) (files : List FileEnv) (ca : ℚ)
        (ct : String), pn ≠ "" → Inv (build_index st pn files ca ct).1) ∧
    (∀ (st : EngineState) (file : Option (Except String JsonObj)),
        st.initialized = false → Inv (load_corpus_info st file).1) ∧
    (∀ (st : EngineState) (file : Option (Except String JsonObj)),
        st.initialized = false → (load_corpus_info st file).2 = false →
          (load_corpus_info st file).1.initialized = false) ∧
    (∀ (st : EngineState), (load_corpus_info st none).2 = false) ∧
    (∀ (st : EngineState) (e : String),
        (load_corpus_info st (some (.error e))).2 = false) ∧
    (∀ (st : EngineState) (doc : JsonObj),
        truthyStr (getStr doc "store_resource_name") = false →
          (load_corpus_info st (some (.ok doc))).2 = false) := by
  refine ⟨?_, ?_, ?_, ?_, ?_, ?_, ?_⟩
  · intro h
    exact absurd h (by decide)
  · intro st pn files ca ct hpn h
    show truthyStr (some pn) = true
    simp [truthyStr, hpn]
  · intro st file hinit
    match file with
    | none =>
        show Inv st
        intro h
        rw [hinit] at h
        exact Bool.noConfusion h
    | some (.error e) =>
        show Inv st
        intro h
        rw [hinit] at h
        exact Bool.noConfusion h
    | some (.ok doc) =>
        unfold load_corpus_info
        dsimp only
        split
        · intro _
          assumption
        · intro h
          exact absurd (hinit.symm.trans h) Bool.noConfusion
  · intro st file hinit hfalse
    match file with
    | none => exact hinit
    | some (.error e) => exact hinit
    | some (.ok doc) =>
        by_cases h : truthyStr (getStr doc "store_resource_name") = true
        · have htrue : (load_corpus_info st (some (.ok doc))).2 = true := by
            unfold load_corpus_info
            dsimp only
            rw [if_pos h]
          exact absurd (htrue.symm.trans hfalse) Bool.noConfusion
        · have h1 : (load_corpus_info st (some (.ok doc))).1 =
              { store_resource_name := getStr doc "store_resource_name",
                initialized := st.initialized } := by
            unfold load_corpus_info
            dsimp only
            rw [if_neg h]
          rw [h1]
          exact hinit
  · intro st
    rfl
  · intro st e
    rfl
  · intro st doc hname
    unfold load_corpus_info
    dsimp only
    rw [if_neg (fun hc => Bool.noConfusion (hname.symm.trans hc))]

/-- Witness for C10 at concrete inputs. -/
theorem C10_witness :
    Inv (build_index initState "fileSearchStores/s1" [] 0 "t0").1 ∧
    (load_corpus_info initState none).2 = false ∧
    Inv (load_corpus_info initState none).1 :=
  ⟨C10_initialization_invariant.2.1 initState "fileSearchStores/s1" [] 0 "t0"
      (by decide),
   C10_initialization_invariant.2.2.2.2.1 initState,
   C10_initialization_invariant.2.2.1 initState none rfl⟩

end FscSanctionQA
